import Mathlib

/-!
Verification of the lego_builder export pipeline.

This file embeds the brick-export pipeline of `src/export_to_blender.py` and
`src/interactive_bricks.py` in Lean and proves the specified properties of it.

Conventions of the embedding:
* Positions and quaternion components are exact integers: the pipeline does no
  arithmetic of its own on them besides composing transforms inside composite
  expansion, and no property proved here depends on the numeric contents of a
  coordinate, only on counts, ordering, colors, errors and format strings.
* Python dictionaries iterated in insertion order (`data['operations']`) are
  association lists `List (String × _)`.
* Geometry produced by the external collaborator `brick2mesh` (file
  `bricks/bricks.py`, outside `src/`) is an abstract parameter
  `b2m : Brick → Option Color → Mesh`; the spec treats it as an out-of-scope
  collaborator supplying a canonical local-space mesh with the brick transform
  applied.
* Fallible code (`int(i_str)` raising on a malformed step key) is embedded with
  `Except`.
-/

namespace LegoBuilder

/-- A 3-vector of exact coordinates (positions, translations). -/
structure Vec3 where
  x : Int
  y : Int
  z : Int
deriving DecidableEq

/-- A quaternion in scalar-first convention (w, x, y, z). -/
structure Quat where
  w : Int
  x : Int
  y : Int
  z : Int
deriving DecidableEq

/-- An RGB color triple as carried in the JSON data. -/
abbrev Color := Int × Int × Int

/-- Embeds `Brick(brick_type, position, rotation)` from `bricks.brick_info`
as used by `src/export_to_blender.py` and `src/interactive_bricks.py`:
a primitive placed brick. -/
structure Brick where
  brick_type : String
  position : Vec3
  rotation : Quat
deriving DecidableEq

/-- The identity quaternion `(1, 0, 0, 0)`, the default rotation used
throughout the source. -/
def identityQuat : Quat := ⟨1, 0, 0, 0⟩

/-- Hamilton product of two quaternions (scalar-first). -/
def qmul (a b : Quat) : Quat :=
  ⟨a.w * b.w - a.x * b.x - a.y * b.y - a.z * b.z,
   a.w * b.x + a.x * b.w + a.y * b.z - a.z * b.y,
   a.w * b.y - a.x * b.z + a.y * b.w + a.z * b.x,
   a.w * b.z + a.x * b.y - a.y * b.x + a.z * b.w⟩

/-- Rotation of a vector by a unit quaternion, `q * (0,v) * conj q`
(vector part). -/
def qrot (q : Quat) (v : Vec3) : Vec3 :=
  let p := qmul (qmul q ⟨0, v.x, v.y, v.z⟩) ⟨q.w, -q.x, -q.y, -q.z⟩
  ⟨p.x, p.y, p.z⟩

/-- Component-wise vector addition. -/
def vadd (a b : Vec3) : Vec3 := ⟨a.x + b.x, a.y + b.y, a.z + b.z⟩

/-- One entry of a step's `bricks` list in the JSON data (spec section 6):
a primitive entry carries a `brick_type`; a composite entry has no
`brick_type` and instead carries nested sub-entries. Both carry a
`brick_transform` (position and rotation) and an optional `color`. -/
inductive Entry where
  | prim (brick_type : String) (position : Vec3) (rotation : Quat)
      (color : Option Color)
  | comp (position : Vec3) (rotation : Quat) (color : Option Color)
      (bricks : List Entry)

/-- One step of the `operations` mapping: `op['bricks']`. -/
structure Op where
  bricks : List Entry

/-- The top-level JSON data dictionary: `data['operations']`, a Python dict
from step-index strings to steps, kept in insertion order. -/
structure InputData where
  operations : List (String × Op)

mutual
/-- Modelled from the spec: `dict_to_cbrick` lives in `bricks/brick_info.py`,
which is not under `src/`. Per spec sections 4.1 and 4.2, a composite brick's
`bricks` attribute is the flat, order-preserving, depth-first sequence of its
primitive leaf sub-bricks, each carrying the fully composed world transform
(rotate the child position by the enclosing rotation, translate by the
enclosing position; compose rotations by quaternion product). `p`, `q` are
the position and rotation in effect at the enclosing level. -/
def entryBricks (p : Vec3) (q : Quat) : Entry → List Brick
  | .prim bt pos rot _ => [⟨bt, vadd p (qrot q pos), qmul q rot⟩]
  | .comp pos rot _ subs => entriesBricks (vadd p (qrot q pos)) (qmul q rot) subs

/-- Modelled from the spec: depth-first expansion over a list of sub-entries,
preserving input order (spec section 4.2). -/
def entriesBricks (p : Vec3) (q : Quat) : List Entry → List Brick
  | [] => []
  | e :: es => entryBricks p q e ++ entriesBricks p q es
end

/-- Embeds the per-entry body of the loop in `export_from_json`
(`src/export_to_blender.py` lines 181-205): a primitive entry yields one
brick paired with its own color when `with_colors` is set and it has one,
else `None`; a composite entry is expanded via `dict_to_cbrick(...).bricks`
and every resulting sub-brick is paired with the composite entry's color
(`b_step[j]['color']`) when `with_colors` is set and it is present, else
`None`. -/
def processEntry (with_colors : Bool) : Entry → List (Brick × Option Color)
  | .prim bt pos rot c =>
      [(⟨bt, pos, rot⟩, if with_colors ∧ c.isSome then c else none)]
  | .comp pos rot c subs =>
      (entriesBricks pos rot subs).map
        (fun b => (b, if with_colors ∧ c.isSome then c else none))

/-- The inner `for j in range(len(b_step))` loop of `export_from_json`:
entries of one step processed in order, results appended. -/
def processEntries (with_colors : Bool) : List Entry → List (Brick × Option Color)
  | [] => []
  | e :: es => processEntry with_colors e ++ processEntries with_colors es

/-- Whitespace as stripped by Python `int(s)` around a numeric literal. -/
def isSpaceChar (c : Char) : Bool :=
  c = ' ' ∨ c = '\t' ∨ c = '\n' ∨ c = '\r'

/-- Decimal value of a digit list, most significant first. -/
def digitsVal (l : List Char) : Nat :=
  l.foldl (fun acc c => acc * 10 + (c.toNat - 48)) 0

/-- Models Python `int(s)` on a decimal string: optional surrounding
whitespace, optional sign, then at least one digit; anything else raises
(`none` here). -/
def parseInt? (s : String) : Option Int :=
  let t := ((s.data.dropWhile isSpaceChar).reverse.dropWhile isSpaceChar).reverse
  match t with
  | [] => none
  | c :: rest =>
    let (sign, digits) :=
      if c = '-' then ((-1 : Int), rest)
      else if c = '+' then ((1 : Int), rest)
      else ((1 : Int), c :: rest)
    if digits.length ≠ 0 ∧ digits.all Char.isDigit then
      some (sign * (digitsVal digits : Int))
    else none

/-- The error surfaced when a step key is not convertible to an integer
(Python `int(i_str)` raising; the spec calls this `InputError`). -/
inductive ExportError where
  | inputError (key : String)
deriving DecidableEq

/-- Decidable equality for `Except` results, so that concrete runs of the
pipeline can be checked by `decide`. -/
instance instDecEqExcept {ε α : Type} [DecidableEq ε] [DecidableEq α] :
    DecidableEq (Except ε α) := fun a b =>
  match a, b with
  | .error e, .error f => decidable_of_iff (e = f) (by simp)
  | .error _, .ok _ => isFalse (by simp)
  | .ok _, .error _ => isFalse (by simp)
  | .ok x, .ok y => decidable_of_iff (x = y) (by simp)

/-- Embeds the outer `for i_str, op in data['operations'].items()` loop of
`export_from_json` (`src/export_to_blender.py` lines 177-205). `nOps` is
`len(data['operations'])`. The guard is exactly
`if only_final and int(i_str) != len(data['operations']) - 1: continue`;
note that `int(i_str)` is only evaluated when `only_final` is true
(Python `and` short-circuits). -/
def collectOps (nOps : Int) (only_final with_colors : Bool) :
    List (String × Op) → Except ExportError (List (Brick × Option Color))
  | [] => .ok []
  | (iStr, op) :: rest =>
    if only_final then
      match parseInt? iStr with
      | none => .error (.inputError iStr)
      | some v =>
        if v ≠ nOps - 1 then
          collectOps nOps only_final with_colors rest
        else
          match collectOps nOps only_final with_colors rest with
          | .error e => .error e
          | .ok r => .ok (processEntries with_colors op.bricks ++ r)
    else
      match collectOps nOps only_final with_colors rest with
      | .error e => .error e
      | .ok r => .ok (processEntries with_colors op.bricks ++ r)

/-- Embeds the brick/color collection phase of `export_from_json`: the flat
list of `(brick, color)` pairs accumulated over all (selected) steps, or the
error raised on a malformed step key. -/
def export_from_json_bricks (data : InputData) (only_final with_colors : Bool) :
    Except ExportError (List (Brick × Option Color)) :=
  collectOps (data.operations.length : Int) only_final with_colors data.operations

/-- A triangle mesh: vertex list and faces as triples of vertex indices. -/
structure Mesh where
  vertices : List Vec3
  faces : List (Nat × Nat × Nat)
deriving DecidableEq

/-- Shifts one face's three vertex indices by an offset. -/
def offsetFace (off : Nat) (f : Nat × Nat × Nat) : Nat × Nat × Nat :=
  (f.1 + off, f.2.1 + off, f.2.2 + off)

/-- Modelled from the spec: `trimesh.util.concatenate` is an external
collaborator; per spec section 4.4, merging concatenates the vertex lists in
input order and re-indexes each mesh's face indices by the cumulative
vertex-count offset seen so far; zero meshes yield an empty mesh. `off` is
the number of vertices accumulated before the current mesh. -/
def concatFrom (off : Nat) : List Mesh → Mesh
  | [] => { vertices := [], faces := [] }
  | m :: ms =>
    let rest := concatFrom (off + m.vertices.length) ms
    { vertices := m.vertices ++ rest.vertices,
      faces := m.faces.map (offsetFace off) ++ rest.faces }

/-- Merge of a list of meshes, starting at offset zero. -/
def concatenate (ms : List Mesh) : Mesh := concatFrom 0 ms

/-- Embeds `export_brick_to_mesh` (`src/export_to_blender.py` lines 48-60):
delegates to the external `brick2mesh` collaborator, here the abstract
parameter `b2m`. -/
def export_brick_to_mesh (b2m : Brick → Option Color → Mesh)
    (brick : Brick) (color : Option Color) : Mesh :=
  b2m brick color

/-- Embeds `colors[i] if colors and i < len(colors) else None` from the loop
of `export_bricks_to_mesh`: a missing list, an empty list (falsy in Python),
or an out-of-range index all yield `None`. -/
def colorFor (colors : Option (List (Option Color))) (i : Nat) : Option Color :=
  match colors with
  | none => none
  | some cs => if cs.length ≠ 0 ∧ i < cs.length then cs.getD i none else none

/-- The `for i, brick in enumerate(bricks)` loop of `export_bricks_to_mesh`:
one mesh per brick, in input order, using `colorFor` at the running index. -/
def brickMeshesFrom (b2m : Brick → Option Color → Mesh)
    (colors : Option (List (Option Color))) (i : Nat) : List Brick → List Mesh
  | [] => []
  | b :: bs =>
      export_brick_to_mesh b2m b (colorFor colors i) ::
        brickMeshesFrom b2m colors (i + 1) bs

/-- Embeds `export_bricks_to_mesh` (`src/export_to_blender.py` lines 63-91):
builds the per-brick mesh list, then either merges it into a single mesh
(`merge = True`, left injection) or returns the list unchanged
(`merge = False`, right injection). -/
def export_bricks_to_mesh (b2m : Brick → Option Color → Mesh)
    (bricks : List Brick) (colors : Option (List (Option Color)))
    (merge : Bool) : Sum Mesh (List Mesh) :=
  let meshes := brickMeshesFrom b2m colors 0 bricks
  if merge then Sum.inl (concatenate meshes) else Sum.inr meshes

/-- Last index of a character in a char list, scanning left to right while
keeping the most recent hit; `-1` when absent. Models Python `str.rfind`. -/
def rfindCharAux (c : Char) : List Char → Int → Int → Int
  | [], _, acc => acc
  | a :: rest, i, acc => rfindCharAux c rest (i + 1) (if a = c then i else acc)

/-- Python `p.rfind(c)`: index of the last occurrence of `c`, or `-1`. -/
def rfindChar (c : Char) (l : List Char) : Int := rfindCharAux c l 0 (-1)

/-- Models `os.path.splitext(p)[1]` (posixpath): the extension starts at the
last dot, provided that dot lies after the last path separator and the
basename has at least one non-dot character before it (leading dots of the
basename never start an extension); otherwise the extension is empty. -/
def splitextExt (p : String) : String :=
  let l := p.data
  let sepIndex := rfindChar '/' l
  let dotIndex := rfindChar '.' l
  if sepIndex < dotIndex ∧
      ((l.take dotIndex.toNat).drop (sepIndex + 1).toNat).any (fun ch => ch ≠ '.') then
    String.mk (l.drop dotIndex.toNat)
  else
    ""

/-- Python `str.lower` on the ASCII strings involved here. -/
def pyLower (s : String) : String := String.mk (s.data.map Char.toLower)

/-- Embeds the format computation of `export_to_file`
(`src/export_to_blender.py` lines 129-146): when `format` is `None` it
becomes `os.path.splitext(output_path)[1][1:].lower()`; an explicit format
is used as given. -/
def export_to_file_format (output_path : String) (format : Option String) : String :=
  match format with
  | some f => f
  | none => pyLower (String.mk ((splitextExt output_path).data.drop 1))

/-- The serialization backend `export_to_file` dispatches to. -/
inductive FileType where
  | obj
  | ply
  | stl
  | glb
  | auto
deriving DecidableEq

/-- The `if format == 'obj' ... else` dispatch of `export_to_file`: which
trimesh export branch runs for the effective format string (`auto` is the
final fallback that lets trimesh infer the type itself). -/
def export_to_file_filetype (output_path : String) (format : Option String) : FileType :=
  let fmt := export_to_file_format output_path format
  if fmt = "obj" then .obj
  else if fmt = "ply" then .ply
  else if fmt = "stl" then .stl
  else if fmt = "glb" ∨ fmt = "gltf" then .glb
  else .auto

/-- Python `zip` over the three per-brick lists of `create_custom_assembly`,
truncating to the shortest, each triple built into a `Brick`. -/
def zip3Bricks : List String → List Vec3 → List Quat → List Brick
  | bt :: bts, p :: ps, r :: rs => ⟨bt, p, r⟩ :: zip3Bricks bts ps rs
  | _, _, _ => []

/-- Embeds the brick-construction phase of `create_custom_assembly`
(`src/interactive_bricks.py` lines 92-101): a missing rotations list is
replaced by identity quaternions; then a rotations list whose length
differs from `brick_types` is also replaced wholesale by identity
quaternions; finally bricks are built by zipping the three lists. -/
def create_custom_assembly_bricks (brick_types : List String)
    (positions : List Vec3) (rotations : Option (List Quat)) : List Brick :=
  let rots0 :=
    match rotations with
    | none => List.replicate brick_types.length identityQuat
    | some r => r
  let rots :=
    if rots0.length ≠ brick_types.length then
      List.replicate brick_types.length identityQuat
    else rots0
  zip3Bricks brick_types positions rots

mutual
/-- Number of primitive leaves of an entry (spec section 4.2: a composite
with `k` leaf primitives). -/
def countLeaves : Entry → Nat
  | .prim _ _ _ _ => 1
  | .comp _ _ _ subs => countLeavesList subs

/-- Number of primitive leaves summed over a list of entries. -/
def countLeavesList : List Entry → Nat
  | [] => 0
  | e :: es => countLeaves e + countLeavesList es
end

mutual
/-- The depth-first sequence of leaf brick types of an entry, defined by
plain structural recursion on the tree; the ordering reference against
which expansion order is checked. -/
def leafTypes : Entry → List String
  | .prim bt _ _ _ => [bt]
  | .comp _ _ _ subs => leafTypesList subs

/-- Depth-first leaf brick types over a list of entries, in input order. -/
def leafTypesList : List Entry → List String
  | [] => []
  | e :: es => leafTypes e ++ leafTypesList es
end

/-- Faces of a mesh only mention vertex indices that exist. -/
def faceBounded (m : Mesh) : Prop :=
  ∀ f ∈ m.faces,
    f.1 < m.vertices.length ∧ f.2.1 < m.vertices.length ∧ f.2.2 < m.vertices.length

/-- Face-boundedness of a concrete mesh is checkable by evaluation. -/
instance instDecFaceBounded (m : Mesh) : Decidable (faceBounded m) := by
  unfold faceBounded
  infer_instance

/-- The origin position, used by the concrete test inputs below. -/
def origin3 : Vec3 := ⟨0, 0, 0⟩

/-- A concrete primitive brick at the origin with identity rotation. -/
def brick3001 : Brick := ⟨"3001", origin3, identityQuat⟩

/-- A second concrete primitive brick. -/
def brick3002 : Brick := ⟨"3002", origin3, identityQuat⟩

/-- A step holding only `brick3001` as a primitive entry, no color. -/
def opA : Op := ⟨[.prim "3001" origin3 identityQuat none]⟩

/-- A step holding only `brick3002` as a primitive entry, no color. -/
def opB : Op := ⟨[.prim "3002" origin3 identityQuat none]⟩

/-- Concrete input for claim C1: the `operations` keys are `"0"` and `"2"` —
integer, distinct, but not contiguous (no step `"1"`). The numerically
greatest key is `"2"`. -/
def dataGap : InputData := ⟨[("0", opA), ("2", opB)]⟩

/-- Concrete input for claim C2: one composite entry colored `(1,2,3)`
containing a single leaf sub-brick that carries its own explicit color
`(9,9,9)`. -/
def dataLeafColor : InputData :=
  ⟨[("0", ⟨[.comp origin3 identityQuat (some (1, 2, 3))
      [.prim "3001" origin3 identityQuat (some (9, 9, 9))]]⟩)]⟩

/-- Concrete input for claim C6: a single step whose key `"abc"` is not
convertible to an integer. -/
def dataBadKey : InputData := ⟨[("abc", opA)]⟩

/-- A concrete one-triangle mesh used as canonical geometry in witnesses. -/
def meshTri : Mesh :=
  ⟨[⟨0, 0, 0⟩, ⟨1, 0, 0⟩, ⟨0, 1, 0⟩], [(0, 1, 2)]⟩

/-- A concrete two-triangle mesh used as canonical geometry in witnesses. -/
def meshQuad : Mesh :=
  ⟨[⟨0, 0, 0⟩, ⟨1, 0, 0⟩, ⟨1, 1, 0⟩, ⟨0, 1, 0⟩], [(0, 1, 2), (0, 2, 3)]⟩

/-- A concrete stand-in for the external `brick2mesh` collaborator: brick
type `"3001"` maps to the triangle mesh, anything else to the quad mesh. -/
def b2mEx : Brick → Option Color → Mesh := fun b _ =>
  if b.brick_type = "3001" then meshTri else meshQuad

mutual
/-- Expansion of a single entry yields one brick per primitive leaf. -/
theorem entryBricks_length (p : Vec3) (q : Quat) (e : Entry) :
    (entryBricks p q e).length = countLeaves e := by
  cases e with
  | prim bt pos rot c => simp [entryBricks, countLeaves]
  | comp pos rot c subs =>
      simpa [entryBricks, countLeaves] using
        entriesBricks_length (vadd p (qrot q pos)) (qmul q rot) subs

/-- Expansion of a list of entries yields one brick per primitive leaf. -/
theorem entriesBricks_length (p : Vec3) (q : Quat) (es : List Entry) :
    (entriesBricks p q es).length = countLeavesList es := by
  cases es with
  | nil => simp [entriesBricks, countLeavesList]
  | cons e es =>
      simp [entriesBricks, countLeavesList, entryBricks_length p q e,
        entriesBricks_length p q es]
end

mutual
/-- Expansion of a single entry lists its leaf brick types depth-first. -/
theorem entryBricks_types (p : Vec3) (q : Quat) (e : Entry) :
    (entryBricks p q e).map Brick.brick_type = leafTypes e := by
  cases e with
  | prim bt pos rot c => simp [entryBricks, leafTypes]
  | comp pos rot c subs =>
      simpa [entryBricks, leafTypes] using
        entriesBricks_types (vadd p (qrot q pos)) (qmul q rot) subs

/-- Expansion of a list of entries lists leaf brick types depth-first in
input order. -/
theorem entriesBricks_types (p : Vec3) (q : Quat) (es : List Entry) :
    (entriesBricks p q es).map Brick.brick_type = leafTypesList es := by
  cases es with
  | nil => simp [entriesBricks, leafTypesList]
  | cons e es =>
      simp [entriesBricks, leafTypesList, entryBricks_types p q e,
        entriesBricks_types p q es]
end

/-- A step entry contributes one output record per primitive leaf. -/
theorem processEntry_length (wc : Bool) (e : Entry) :
    (processEntry wc e).length = countLeaves e := by
  cases e with
  | prim bt pos rot c => simp [processEntry, countLeaves]
  | comp pos rot c subs =>
      simpa [processEntry, countLeaves] using entriesBricks_length pos rot subs

/-- The brick types of a step entry's output records are its depth-first
leaf types. -/
theorem processEntry_types (wc : Bool) (e : Entry) :
    (processEntry wc e).map (fun r => r.1.brick_type) = leafTypes e := by
  cases e with
  | prim bt pos rot c => simp [processEntry, leafTypes]
  | comp pos rot c subs =>
      simpa [processEntry, List.map_map, Function.comp] using
        entriesBricks_types pos rot subs

/-- Processing a step's entry list distributes over append. -/
theorem processEntries_append (wc : Bool) (es1 es2 : List Entry) :
    processEntries wc (es1 ++ es2) =
      processEntries wc es1 ++ processEntries wc es2 := by
  induction es1 with
  | nil => simp [processEntries]
  | cons e es ih => simp [processEntries, ih]

/-- The merged vertex list is the concatenation of the input vertex lists,
in input order, for any starting offset. -/
theorem concatFrom_vertices (ms : List Mesh) :
    ∀ off, (concatFrom off ms).vertices = (ms.map Mesh.vertices).flatten := by
  induction ms with
  | nil => intro off; rfl
  | cons m ms ih => intro off; simp [concatFrom, ih]

/-- The merged face count is the sum of the input face counts. -/
theorem concatFrom_faces_length (ms : List Mesh) :
    ∀ off, (concatFrom off ms).faces.length =
      (ms.map (fun m => m.faces.length)).sum := by
  induction ms with
  | nil => intro off; rfl
  | cons m ms ih => intro off; simp [concatFrom, ih]

/-- The merged vertex count is the sum of the input vertex counts. -/
theorem concatFrom_vertices_length (ms : List Mesh) (off : Nat) :
    (concatFrom off ms).vertices.length =
      (ms.map (fun m => m.vertices.length)).sum := by
  simp only [concatFrom_vertices, List.length_flatten, List.map_map]
  rfl

/-- Every face index of the merge of bounded meshes stays below the offset
plus the total vertex count. -/
theorem concatFrom_faces_bounded (ms : List Mesh) :
    ∀ off, (∀ m ∈ ms, faceBounded m) →
      ∀ f ∈ (concatFrom off ms).faces,
        f.1 < off + (ms.map (fun m => m.vertices.length)).sum ∧
        f.2.1 < off + (ms.map (fun m => m.vertices.length)).sum ∧
        f.2.2 < off + (ms.map (fun m => m.vertices.length)).sum := by
  induction ms with
  | nil => intro off _ f hf; simp [concatFrom] at hf
  | cons m ms ih =>
      intro off hms f hf
      simp only [concatFrom, List.mem_append] at hf
      rcases hf with hf | hf
      · obtain ⟨g, hg, rfl⟩ := List.mem_map.mp hf
        have hb := hms m (by simp) g hg
        simp only [offsetFace, List.map_cons, List.sum_cons]
        omega
      · have := ih (off + m.vertices.length) (fun m' hm' => hms m' (by simp [hm'])) f hf
        simp only [List.map_cons, List.sum_cons]
        omega

/-- The per-brick mesh list has one mesh per brick, for any starting index. -/
theorem brickMeshesFrom_length (b2m : Brick → Option Color → Mesh)
    (colors : Option (List (Option Color))) (bricks : List Brick) :
    ∀ i, (brickMeshesFrom b2m colors i bricks).length = bricks.length := by
  induction bricks with
  | nil => intro i; rfl
  | cons b bs ih => intro i; simp [brickMeshesFrom, ih]

/-- The mesh at position `i` of the per-brick mesh list comes from the brick
at position `i` with the color looked up at the running index. -/
theorem brickMeshesFrom_getElem? (b2m : Brick → Option Color → Mesh)
    (colors : Option (List (Option Color))) (bricks : List Brick) :
    ∀ k i, (brickMeshesFrom b2m colors k bricks)[i]? =
      (bricks[i]?).map (fun b => b2m b (colorFor colors (k + i))) := by
  induction bricks with
  | nil => intro k i; simp [brickMeshesFrom]
  | cons b bs ih =>
      intro k i
      cases i with
      | zero => simp [brickMeshesFrom, export_brick_to_mesh]
      | succ j =>
          have h1 : k + (j + 1) = (k + 1) + j := by omega
          simp only [brickMeshesFrom, List.getElem?_cons_succ, h1]
          exact ih (k + 1) j

/-- An index at or past the end of the colors list resolves to no color. -/
theorem colorFor_out_of_range (cs : List (Option Color)) (i : Nat)
    (h : cs.length ≤ i) : colorFor (some cs) i = none := by
  show (if cs.length ≠ 0 ∧ i < cs.length then cs.getD i none else none) = none
  rw [if_neg]
  intro hc
  exact absurd hc.2 (Nat.not_lt.mpr h)

/-- With `only_final = False` the step loop never evaluates `int(i_str)` and
so never fails, whatever the keys are. -/
theorem collectOps_false_ok (nOps : Int) (wc : Bool) (ops : List (String × Op)) :
    ∃ l, collectOps nOps false wc ops = .ok l := by
  induction ops with
  | nil => exact ⟨[], rfl⟩
  | cons p rest ih =>
      obtain ⟨l, hl⟩ := ih
      exact ⟨processEntries wc p.2.bricks ++ l, by simp [collectOps, hl]⟩

/-- With `only_final = True` the step loop fails on the first key that is
not convertible to an integer, if any key is. -/
theorem collectOps_true_error (nOps : Int) (wc : Bool) (ops : List (String × Op))
    (hbad : ∃ p ∈ ops, parseInt? p.1 = none) :
    ∃ k, collectOps nOps true wc ops = .error (.inputError k) ∧
      parseInt? k = none := by
  induction ops with
  | nil => simp at hbad
  | cons p rest ih =>
      obtain ⟨iStr, op⟩ := p
      by_cases hp : parseInt? iStr = none
      · exact ⟨iStr, by simp [collectOps, hp], hp⟩
      · obtain ⟨v, hv⟩ := Option.ne_none_iff_exists'.mp hp
        have hrest : ∃ q ∈ rest, parseInt? q.1 = none := by
          rcases hbad with ⟨q, hq, hqn⟩
          rcases List.mem_cons.mp hq with rfl | hq'
          · exact absurd hqn hp
          · exact ⟨q, hq', hqn⟩
        obtain ⟨k, hk, hkn⟩ := ih hrest
        refine ⟨k, ?_, hkn⟩
        by_cases hvn : v ≠ nOps - 1
        · simp [collectOps, hv, hvn, hk]
        · simp [collectOps, hv, hvn, hk]

/-- The rotation of any brick built by the zip of `create_custom_assembly`
comes from the rotations list. -/
theorem zip3Bricks_rotation_mem (bts : List String) :
    ∀ ps rs b, b ∈ zip3Bricks bts ps rs → b.rotation ∈ rs := by
  induction bts with
  | nil => intro ps rs b hb; simp [zip3Bricks] at hb
  | cons t ts ih =>
      intro ps rs b hb
      cases ps with
      | nil => simp [zip3Bricks] at hb
      | cons p ps =>
          cases rs with
          | nil => simp [zip3Bricks] at hb
          | cons r rs =>
              simp only [zip3Bricks, List.mem_cons] at hb
              rcases hb with rfl | hb
              · simp
              · exact List.mem_cons_of_mem _ (ih ps rs b hb)

/-- Claim C1: the spec requires `only_final` to process exactly the step
with the numerically greatest integer key, without assuming keys are
sorted or contiguous. The code keeps only steps whose key satisfies
`int(i_str) == len(operations) - 1`, which presumes contiguous indices
`0..N-1`: on `dataGap` (keys `"0"` and `"2"`, greatest key `"2"`) it
processes no step at all and collects zero bricks, although the
maximum-key step would contribute a brick (second conjunct). -/
theorem onlyFinal_noncontiguous_selects_nothing :
    export_from_json_bricks dataGap true true = .ok [] ∧
    processEntries true opB.bricks = [(brick3002, none)] := by decide

/-- Claim C2 (counterexample): on `dataLeafColor` the single leaf sub-brick
carries the explicit color `(9,9,9)`, yet the produced record carries the
enclosing composite entry's color `(1,2,3)` — the explicit leaf color does
not override the inherited one, refuting the claim at this input. -/
theorem leaf_color_not_overriding :
    export_from_json_bricks dataLeafColor false true =
      .ok [(brick3001, some (1, 2, 3))] ∧
    (some ((1, 2, 3) : Color)) ≠ (some ((9, 9, 9) : Color)) := by decide

/-- Claim C2 (amended): every primitive record produced from a composite
entry is assigned the composite entry's own top-level color when
`with_colors` is set and the entry carries one, and no color otherwise;
colors on nested definitions or leaf sub-bricks are never consulted. -/
theorem composite_records_use_entry_color (wc : Bool) (pos : Vec3) (q : Quat)
    (c : Option Color) (subs : List Entry) (r : Brick × Option Color)
    (hr : r ∈ processEntry wc (.comp pos q c subs)) :
    r.2 = if wc ∧ c.isSome then c else none := by
  simp only [processEntry, List.mem_map] at hr
  obtain ⟨b, _, rfl⟩ := hr
  rfl

/-- Witness for the amended claim C2 at the concrete composite of
`dataLeafColor`: the record's color is the composite entry's `(1,2,3)`. -/
theorem composite_records_use_entry_color_witness :
    ((brick3001, some (1, 2, 3)) : Brick × Option Color) ∈
      processEntry true (.comp origin3 identityQuat (some (1, 2, 3))
        [.prim "3001" origin3 identityQuat (some (9, 9, 9))]) ∧
    ((brick3001, some (1, 2, 3)) : Brick × Option Color).2 =
      (if true ∧ (some ((1, 2, 3) : Color)).isSome
        then some ((1, 2, 3) : Color) else none) :=
  ⟨by decide,
   composite_records_use_entry_color true origin3 identityQuat
     (some (1, 2, 3)) [.prim "3001" origin3 identityQuat (some (9, 9, 9))]
     (brick3001, some (1, 2, 3)) (by decide)⟩

/-- Claim C3: for a non-empty brick list whose per-brick meshes have
in-bounds faces, merging returns one mesh whose vertex and face counts are
the sums of the per-brick counts, whose vertex list is the per-brick vertex
blocks concatenated in input record order, and all of whose face indices
are within the merged vertex array. -/
theorem merged_mesh_counts_and_bounds (b2m : Brick → Option Color → Mesh)
    (bricks : List Brick) (colors : Option (List (Option Color)))
    (_hne : bricks ≠ [])
    (hvalid : ∀ m ∈ brickMeshesFrom b2m colors 0 bricks, faceBounded m)
    (merged : Mesh)
    (hm : export_bricks_to_mesh b2m bricks colors true = Sum.inl merged) :
    merged.vertices.length =
      ((brickMeshesFrom b2m colors 0 bricks).map (fun m => m.vertices.length)).sum ∧
    merged.faces.length =
      ((brickMeshesFrom b2m colors 0 bricks).map (fun m => m.faces.length)).sum ∧
    merged.vertices =
      ((brickMeshesFrom b2m colors 0 bricks).map Mesh.vertices).flatten ∧
    faceBounded merged := by
  have hm' : (Sum.inl (concatenate (brickMeshesFrom b2m colors 0 bricks)) :
      Sum Mesh (List Mesh)) = Sum.inl merged := hm
  obtain rfl : merged = concatFrom 0 (brickMeshesFrom b2m colors 0 bricks) :=
    (Sum.inl.inj hm').symm
  refine ⟨concatFrom_vertices_length _ 0, concatFrom_faces_length _ 0,
    concatFrom_vertices _ 0, ?_⟩
  intro f hf
  have hb := concatFrom_faces_bounded (brickMeshesFrom b2m colors 0 bricks)
    0 hvalid f hf
  rw [concatFrom_vertices_length]
  simpa using hb

/-- Witness for claim C3 on two concrete bricks with distinct canonical
meshes (3 + 4 vertices, 1 + 2 faces). -/
theorem merged_mesh_counts_and_bounds_witness :
    ([brick3001, brick3002] ≠ ([] : List Brick)) ∧
    (∀ m ∈ brickMeshesFrom b2mEx none 0 [brick3001, brick3002], faceBounded m) ∧
    (export_bricks_to_mesh b2mEx [brick3001, brick3002] none true =
      Sum.inl (concatFrom 0 (brickMeshesFrom b2mEx none 0 [brick3001, brick3002]))) ∧
    ((concatFrom 0 (brickMeshesFrom b2mEx none 0 [brick3001, brick3002])).vertices.length =
      ((brickMeshesFrom b2mEx none 0 [brick3001, brick3002]).map
        (fun m => m.vertices.length)).sum ∧
     (concatFrom 0 (brickMeshesFrom b2mEx none 0 [brick3001, brick3002])).faces.length =
      ((brickMeshesFrom b2mEx none 0 [brick3001, brick3002]).map
        (fun m => m.faces.length)).sum ∧
     (concatFrom 0 (brickMeshesFrom b2mEx none 0 [brick3001, brick3002])).vertices =
      ((brickMeshesFrom b2mEx none 0 [brick3001, brick3002]).map Mesh.vertices).flatten ∧
     faceBounded (concatFrom 0 (brickMeshesFrom b2mEx none 0 [brick3001, brick3002]))) :=
  ⟨by decide, by decide, rfl,
   merged_mesh_counts_and_bounds b2mEx [brick3001, brick3002] none
     (by decide) (by decide) _ rfl⟩

/-- Claim C4: a composite entry with `k` primitive leaves contributes
exactly `k` records to the step's output; their brick types are the
depth-first leaf types in input order; and within a step's entry list the
composite's records appear exactly at the composite's position, between
the records of the entries before and after it. -/
theorem composite_expansion_count_order (wc : Bool) (pos : Vec3) (q : Quat)
    (c : Option Color) (subs : List Entry) (es1 es2 : List Entry) :
    (processEntry wc (.comp pos q c subs)).length =
      countLeaves (.comp pos q c subs) ∧
    (processEntry wc (.comp pos q c subs)).map (fun r => r.1.brick_type) =
      leafTypes (.comp pos q c subs) ∧
    processEntries wc (es1 ++ .comp pos q c subs :: es2) =
      processEntries wc es1 ++ processEntry wc (.comp pos q c subs) ++
        processEntries wc es2 := by
  refine ⟨processEntry_length wc _, processEntry_types wc _, ?_⟩
  rw [processEntries_append]
  simp [processEntries, List.append_assoc]

/-- Claim C5: with `merge = False` the export returns exactly the per-brick
mesh list — one mesh per input brick, in input order, the `i`-th converted
from the `i`-th brick with the `i`-th effective color. -/
theorem separate_export_per_brick (b2m : Brick → Option Color → Mesh)
    (bricks : List Brick) (colors : Option (List (Option Color))) :
    export_bricks_to_mesh b2m bricks colors false =
      Sum.inr (brickMeshesFrom b2m colors 0 bricks) ∧
    (brickMeshesFrom b2m colors 0 bricks).length = bricks.length ∧
    ∀ i b, bricks[i]? = some b →
      (brickMeshesFrom b2m colors 0 bricks)[i]? =
        some (b2m b (colorFor colors i)) := by
  refine ⟨rfl, brickMeshesFrom_length b2m colors bricks 0, ?_⟩
  intro i b hb
  rw [brickMeshesFrom_getElem? b2m colors bricks 0 i, hb]
  simp

/-- Witness for claim C5 at index 1 of a concrete two-brick list. -/
theorem separate_export_per_brick_witness :
    (([brick3001, brick3002] : List Brick)[1]? = some brick3002) ∧
    (brickMeshesFrom b2mEx (some [some (5, 5, 5)]) 0 [brick3001, brick3002])[1]? =
      some (b2mEx brick3002 (colorFor (some [some (5, 5, 5)]) 1)) :=
  ⟨by decide,
   (separate_export_per_brick b2mEx [brick3001, brick3002]
     (some [some (5, 5, 5)])).2.2 1 brick3002 (by decide)⟩

/-- Claim C6 (counterexample): `dataBadKey` carries the non-integer step
key `"abc"`, yet with `only_final = False` the pipeline succeeds — the
guard `only_final and int(i_str) != ...` short-circuits, so `int(i_str)`
is never evaluated — refuting "regardless of whether only_final is
requested". -/
theorem nonint_key_ok_without_only_final :
    parseInt? "abc" = none ∧
    export_from_json_bricks dataBadKey false true =
      .ok [(brick3001, none)] := by decide

/-- Claim C6 (amended): an `operations` mapping containing a step key not
convertible to an integer makes the pipeline fail with `InputError` when
`only_final` is true, and never fail when `only_final` is false. -/
theorem nonint_key_error_only_when_only_final (data : InputData) (wc : Bool)
    (hbad : ∃ p ∈ data.operations, parseInt? p.1 = none) :
    (∃ k, export_from_json_bricks data true wc = .error (.inputError k) ∧
      parseInt? k = none) ∧
    (∃ l, export_from_json_bricks data false wc = .ok l) :=
  ⟨collectOps_true_error _ wc data.operations hbad,
   collectOps_false_ok _ wc data.operations⟩

/-- Witness for the amended claim C6 on the concrete bad-key input. -/
theorem nonint_key_error_only_when_only_final_witness :
    (∃ p ∈ dataBadKey.operations, parseInt? p.1 = none) ∧
    ((∃ k, export_from_json_bricks dataBadKey true true =
        .error (.inputError k) ∧ parseInt? k = none) ∧
     (∃ l, export_from_json_bricks dataBadKey false true = .ok l)) :=
  ⟨⟨("abc", opA), List.mem_singleton.mpr rfl, by decide⟩,
   nonint_key_error_only_when_only_final dataBadKey true
     ⟨("abc", opA), List.mem_singleton.mpr rfl, by decide⟩⟩

/-- Claim C7: zero input bricks yield the empty merged mesh (no vertices,
no faces) under `merge = True` and the empty list under `merge = False`;
neither case is an error (both sides are total values). -/
theorem empty_bricks_no_error (b2m : Brick → Option Color → Mesh)
    (colors : Option (List (Option Color))) :
    export_bricks_to_mesh b2m [] colors true = Sum.inl ⟨[], []⟩ ∧
    export_bricks_to_mesh b2m [] colors false = Sum.inr [] :=
  ⟨rfl, rfl⟩

/-- Claim C8: with `format = None`, `export_to_file` uses the lower-cased
extension of the output path stripped of its leading dot; an explicit
format is used as given, whatever the path's suffix is. -/
theorem format_inferred_from_suffix (output_path : String) (f : String) :
    export_to_file_format output_path none =
      pyLower (String.mk ((splitextExt output_path).data.drop 1)) ∧
    export_to_file_format output_path (some f) = f :=
  ⟨rfl, rfl⟩

/-- Claim C9: a supplied rotations list whose length differs from
`brick_types` is discarded wholesale — the result equals the one with no
rotations supplied — and every built brick carries the identity quaternion. -/
theorem rotations_length_mismatch_identity (brick_types : List String)
    (positions : List Vec3) (r : List Quat)
    (h : r.length ≠ brick_types.length) :
    create_custom_assembly_bricks brick_types positions (some r) =
      create_custom_assembly_bricks brick_types positions none ∧
    ∀ b ∈ create_custom_assembly_bricks brick_types positions (some r),
      b.rotation = identityQuat := by
  have heq : create_custom_assembly_bricks brick_types positions (some r) =
      zip3Bricks brick_types positions
        (List.replicate brick_types.length identityQuat) := by
    simp [create_custom_assembly_bricks, h]
  have heq2 : create_custom_assembly_bricks brick_types positions none =
      zip3Bricks brick_types positions
        (List.replicate brick_types.length identityQuat) := by
    simp [create_custom_assembly_bricks]
  refine ⟨heq.trans heq2.symm, ?_⟩
  intro b hb
  rw [heq] at hb
  exact List.eq_of_mem_replicate (zip3Bricks_rotation_mem brick_types
    positions (List.replicate brick_types.length identityQuat) b hb)

/-- Witness for claim C9: two brick types, a single supplied rotation that
is not the identity; both built bricks carry the identity quaternion. -/
theorem rotations_length_mismatch_identity_witness :
    (([⟨0, 1, 0, 0⟩] : List Quat).length ≠ (["x", "y"] : List String).length) ∧
    (create_custom_assembly_bricks ["x", "y"] [origin3, origin3]
        (some [⟨0, 1, 0, 0⟩]) =
      create_custom_assembly_bricks ["x", "y"] [origin3, origin3] none ∧
     ∀ b ∈ create_custom_assembly_bricks ["x", "y"] [origin3, origin3]
        (some [⟨0, 1, 0, 0⟩]), b.rotation = identityQuat) :=
  ⟨by decide,
   rotations_length_mismatch_identity ["x", "y"] [origin3, origin3]
     [⟨0, 1, 0, 0⟩] (by decide)⟩

/-- Claim C10: a brick whose index is at or past the end of the colors
list is converted with no color (default material); the lookup is total,
so no out-of-range error can occur. -/
theorem colors_shorter_default_none (b2m : Brick → Option Color → Mesh)
    (bricks : List Brick) (cs : List (Option Color)) (i : Nat) (b : Brick)
    (hlen : cs.length ≤ i) (hb : bricks[i]? = some b) :
    (brickMeshesFrom b2m (some cs) 0 bricks)[i]? = some (b2m b none) := by
  rw [brickMeshesFrom_getElem? b2m (some cs) bricks 0 i, hb]
  simp [Nat.zero_add, colorFor_out_of_range cs i hlen]

/-- Witness for claim C10: two bricks, one color; the second brick is
converted with no color. -/
theorem colors_shorter_default_none_witness :
    (([some ((7, 7, 7) : Color)] : List (Option Color)).length ≤ 1) ∧
    (([brick3001, brick3002] : List Brick)[1]? = some brick3002) ∧
    (brickMeshesFrom b2mEx (some [some (7, 7, 7)]) 0 [brick3001, brick3002])[1]? =
      some (b2mEx brick3002 none) :=
  ⟨by decide, by decide,
   colors_shorter_default_none b2mEx [brick3001, brick3002]
     [some (7, 7, 7)] 1 brick3002 (by decide) (by decide)⟩

end LegoBuilder
